import Mathlib

/-!
A verification development for the discogs-search-top-rated tool
(src/__main__.py). The Python program is shallowly embedded: JSON
dictionaries become structures whose fields are Option-valued (a missing
key is none), a raised Python exception becomes an Except.error, and the
side effects that matter here (rate-limit sleeps and outbound HTTP
requests) are recorded as an explicit event trace. The network is
modelled by pure oracles: the detail endpoint as a function from release
id to the response body, and pagination follow-ups as the list of
successive response pages.
-/

/-- The endpoints a request can target. URLs are kept structured rather
than rendered to strings: the search endpoint, the per-release detail
endpoint, and a raw pagination URL taken from a urls block. -/
inductive Target where
  | search
  | release (id : Int)
  | url (u : String)
deriving Repr, DecidableEq

/-- Observable events of a run: a rate-limit sleep(1), or an outbound
HTTP request issued by session.get. -/
inductive Ev where
  | delay
  | request (t : Target)
deriving Repr, DecidableEq

/-- Python exceptions that the embedded fragments can raise. noResponse
is a model artifact: the pagination oracle ran out of pages where the
real code would issue a further network call; it never occurs under the
well-formedness hypotheses used below. -/
inductive PyErr where
  | keyError
  | indexError
  | typeError
  | noResponse
deriving Repr, DecidableEq

/-- One page of a paginated Discogs response, as the code reads it.
results models page[results_key] (none when the key is missing);
pagPages models page["pagination"]["pages"] (none when the pagination
block or the pages key is missing); pagNext models the
page["pagination"]["urls"] block: none when the urls block is missing,
some none when it has no "next" key, some (some u) when "next" maps to
u. -/
structure Page (α : Type) where
  results : Option (List α)
  pagPages : Option Int
  pagNext : Option (Option String)
deriving Repr, DecidableEq

/-- The while loop of DiscogsSearchTopRated.paginate (lines 176-179):
while "next" is in the pagination urls of the current page, fetch the
next url (one request event, consuming the next oracle response) and
append its records. Accessing a missing urls block or a missing results
key raises KeyError, as in Python. -/
def paginateLoop {α : Type} (current : Page α) (responses : List (Page α))
    (acc : List α) (tr : List Ev) : Except PyErr (List α × List Ev) :=
  match current.pagNext with
  | none => Except.error PyErr.keyError
  | some none => Except.ok (acc, tr)
  | some (some u) =>
    match responses with
    | [] => Except.error PyErr.noResponse
    | p :: rest =>
      match p.results with
      | none => Except.error PyErr.keyError
      | some rs => paginateLoop p rest (acc ++ rs) (tr ++ [Ev.request (Target.url u)])

/-- DiscogsSearchTopRated.paginate (lines 168-180): take the first page
records, and only if the stated page count exceeds 1, sleep once (a
single delay event, emitted before the loop) and run the follow-up
loop starting from the first page. -/
def paginate {α : Type} (first : Page α) (responses : List (Page α)) :
    Except PyErr (List α × List Ev) :=
  match first.results with
  | none => Except.error PyErr.keyError
  | some rs =>
    match first.pagPages with
    | none => Except.error PyErr.keyError
    | some pages =>
      if 1 < pages then
        paginateLoop first responses rs [Ev.delay]
      else
        Except.ok (rs, [])

/-- DiscogsSearchTopRated.search_releases (lines 70-75): one request to
the search endpoint obtains the first page (with no sleep preceding
it), then paginate collates the rest. The first page and the follow-up
responses are supplied by the oracle arguments. -/
def search_releases {α : Type} (first : Page α) (responses : List (Page α)) :
    Except PyErr (List α × List Ev) :=
  match paginate first responses with
  | Except.error e => Except.error e
  | Except.ok (rs, tr) => Except.ok (rs, Ev.request Target.search :: tr)

/-- Number of request events in a trace: the requests that count against
the remote quota. -/
def countRequests : List Ev → Nat
  | [] => 0
  | Ev.delay :: t => countRequests t
  | Ev.request _ :: t => countRequests t + 1

/-- The targets of the request events of a trace, in order. -/
def requestTargets : List Ev → List Target
  | [] => []
  | Ev.delay :: t => requestTargets t
  | Ev.request u :: t => u :: requestTargets t

/-- Holds when every request event of the trace is immediately preceded
by a delay event. The Bool argument records whether the previous event
was a delay. -/
def everyRequestThrottledFrom : Bool → List Ev → Bool
  | _, [] => true
  | _, Ev.delay :: t => everyRequestThrottledFrom true t
  | prevDelay, Ev.request _ :: t => prevDelay && everyRequestThrottledFrom false t

/-- A trace respects the throttle discipline when each request event is
immediately preceded by a delay event. -/
def everyRequestThrottled (t : List Ev) : Bool := everyRequestThrottledFrom false t

/-- The records of a successful paginate call, when it succeeded. -/
def resultOf {α : Type} (x : Except PyErr (List α × List Ev)) : Option (List α) :=
  match x with
  | Except.ok (rs, _) => some rs
  | Except.error _ => none

/-- The event trace of a successful paginate call, when it succeeded. -/
def traceOf {α : Type} (x : Except PyErr (List α × List Ev)) : Option (List Ev) :=
  match x with
  | Except.ok (_, tr) => some tr
  | Except.error _ => none

/-- A page has a next url exactly when its urls block is present and has
a "next" key. -/
def hasNext {α : Type} (p : Page α) : Bool :=
  match p.pagNext with
  | some (some _) => true
  | _ => false

/-- The page chain is well formed: every page but the last names a next
url, and the last page has a urls block without a "next" key. -/
def chainOk {α : Type} : Page α → List (Page α) → Bool
  | p, [] => p.pagNext == some none
  | p, q :: rest => hasNext p && chainOk q rest

/-- Every page of the list carries its results key. -/
def resultsPresent {α : Type} : List (Page α) → Bool
  | [] => true
  | p :: rest => p.results.isSome && resultsPresent rest

/-- Concatenation of the record lists of the pages, in page order. -/
def allRecords {α : Type} (ps : List (Page α)) : List α :=
  ps.flatMap (fun p => p.results.getD [])

/-- The fields of a detail response body that the program reads, each
Option-valued since a JSON key may be absent. community flattens the
path data["community"]["rating"]["average"]; message is the field an
error envelope carries instead of release data. -/
structure RData where
  artists : Option (List String)
  title : Option String
  country : Option String
  year : Option Int
  uri : Option String
  community : Option Rat
  videos : Option (List String)
  message : Option String
deriving Repr, DecidableEq

/-- The Release class (line 183): its constructor only stores the raw
response body in self.data. -/
structure Release where
  data : RData
deriving Repr, DecidableEq

/-- Release.rating (lines 199-205): the community average when the
community key is present, otherwise Python None, modelled as none. -/
def Release.rating (r : Release) : Option Rat :=
  r.data.community

/-- The body of has_videos as written (line 197): true when a videos key
is present and its list is nonempty. In the source this body is never
reached, see Release.has_videos. -/
def Release.has_videos_body (r : Release) : Bool :=
  match r.data.videos with
  | none => false
  | some vs => vs.length != 0

/-- Attribute access on has_videos. In the source the property decorator
is applied twice (lines 194-195), so the outer property object calls
its fget, which is the inner property object; property objects are not
callable, so every access raises TypeError and the body above never
runs. -/
def Release.has_videos (_ : Release) : Except PyErr Bool :=
  Except.error PyErr.typeError

/-- Release.artist (lines 190-192): data["artists"][0], raising KeyError
when the artists key is missing and IndexError when the list is empty. -/
def Release.artist (r : Release) : Except PyErr String :=
  match r.data.artists with
  | none => Except.error PyErr.keyError
  | some [] => Except.error PyErr.indexError
  | some (a :: _) => Except.ok a

/-- One search result entry, with the two keys filter_results reads. -/
structure Candidate where
  id : Int
  master_id : Int
deriving Repr, DecidableEq

/-- DiscogsSearchTopRated.get_full_release (lines 125-132): sleep(1),
request the detail endpoint for the id, and wrap the response body in a
Release. The remote detail endpoint is modelled by the oracle argument
detail, a function from release id to the body it returns. -/
def get_full_release (detail : Int → RData) (release_id : Int) : Release × List Ev :=
  (Release.mk (detail release_id),
   [Ev.delay, Ev.request (Target.release release_id)])

/-- The comprehension on line 86: one get_full_release call per release
id, in input order, collecting the Release values and the emitted
events. -/
def enrichReleases (detail : Int → RData) : List Int → List Release × List Ev
  | [] => ([], [])
  | i :: rest =>
    let step := get_full_release detail i
    let tail := enrichReleases detail rest
    (step.1 :: tail.1, step.2 ++ tail.2)

/-- The comprehension on line 88: keep r when r.rating > min_rating.
Python evaluates left to right; when a rating is None the comparison
None > float raises TypeError, aborting the whole comprehension. -/
def filterByRating (releases : List Release) (min_rating : Rat) :
    Except PyErr (List Release) :=
  match releases with
  | [] => Except.ok []
  | r :: rest =>
    match Release.rating r with
    | none => Except.error PyErr.typeError
    | some a =>
      match filterByRating rest min_rating with
      | Except.error e => Except.error e
      | Except.ok tail => Except.ok (if min_rating < a then r :: tail else tail)

/-- The comprehension on line 92: keep r when not r.has_videos. The
attribute access is the fallible step, see Release.has_videos. -/
def filterNoVideos (releases : List Release) : Except PyErr (List Release) :=
  match releases with
  | [] => Except.ok []
  | r :: rest =>
    match Release.has_videos r with
    | Except.error e => Except.error e
    | Except.ok hv =>
      match filterNoVideos rest with
      | Except.error e => Except.error e
      | Except.ok tail => Except.ok (if hv then tail else r :: tail)

/-- DiscogsSearchTopRated.filter_results (lines 77-95): drop candidates
whose id equals their master_id, fetch the full release for each
remaining id (the enrichment step), then apply the rating filter and,
when no_videos is set, the videos filter. The second component is the
event trace of the enrichment fetches, which were already issued even
when a later filter raises. -/
def filter_results (detail : Int → RData) (results : List Candidate)
    (min_rating : Rat) (no_videos : Bool) :
    Except PyErr (List Release) × List Ev :=
  let results2 := results.filter (fun r => r.id != r.master_id)
  let release_ids := results2.map Candidate.id
  let enr := enrichReleases detail release_ids
  let filtered :=
    match filterByRating enr.1 min_rating with
    | Except.error e => Except.error e
    | Except.ok filtered_releases =>
      if no_videos then filterNoVideos filtered_releases
      else Except.ok filtered_releases
  (filtered, enr.2)

/-- The components printed for one release by output_results (line 100):
the fields of str(release) in the order the f-string reads them, and
then data["uri"]. A None rating prints as None, it does not raise. -/
structure Line where
  artist : String
  title : String
  country : String
  year : Int
  rating : Option Rat
  uri : String
deriving Repr, DecidableEq

/-- Rendering of one release: Release.__str__ (line 188) reads artist,
title, country, year and rating, then output_results reads data["uri"];
a missing key raises. -/
def renderRelease (r : Release) : Except PyErr Line :=
  match Release.artist r with
  | Except.error e => Except.error e
  | Except.ok a =>
    match r.data.title with
    | none => Except.error PyErr.keyError
    | some t =>
      match r.data.country with
      | none => Except.error PyErr.keyError
      | some c =>
        match r.data.year with
        | none => Except.error PyErr.keyError
        | some y =>
          match r.data.uri with
          | none => Except.error PyErr.keyError
          | some u => Except.ok (Line.mk a t c y (Release.rating r) u)

/-- DiscogsSearchTopRated.output_results (lines 97-100): print one line
per release, in the order of the given list. -/
def output_results : List Release → Except PyErr (List Line)
  | [] => Except.ok []
  | r :: rest =>
    match renderRelease r with
    | Except.error e => Except.error e
    | Except.ok l =>
      match output_results rest with
      | Except.error e => Except.error e
      | Except.ok ls => Except.ok (l :: ls)

/-- Sort key used by the spec for the report: the rating of a surviving
release (all survivors carry one; 0 is a dummy for the absent case). -/
def ratingKey (r : Release) : Rat :=
  (Release.rating r).getD 0

/-- Modelled from the spec (ReportStage): stable insertion of a release
into a list sorted by rating descending; the element moves ahead only
of strictly lower rated ones, so equal ratings keep their order. The
source has no sorting step; this definition exists only to compare the
spec report order with the code. -/
def insertByRatingDesc (r : Release) : List Release → List Release
  | [] => [r]
  | x :: xs =>
    if ratingKey x < ratingKey r then r :: x :: xs
    else x :: insertByRatingDesc r xs

/-- Modelled from the spec (ReportStage): stable sort of the surviving
releases by rating descending. -/
def reportSortSpec : List Release → List Release
  | [] => []
  | r :: rs => insertByRatingDesc r (reportSortSpec rs)

/-- A three page search response chain: pages stating 3 total pages, the
first two naming a next url, the last naming none. -/
def c3page1 : Page Int := Page.mk (some [1]) (some 3) (some (some "u2"))

/-- Second page of the three page chain. -/
def c3page2 : Page Int := Page.mk (some [2]) (some 3) (some (some "u3"))

/-- Third and final page of the three page chain. -/
def c3page3 : Page Int := Page.mk (some [3]) (some 3) (some none)

/-- First page of a concrete two page chain. -/
def c6page1 : Page Int := Page.mk (some [1, 2]) (some 2) (some (some "n2"))

/-- Final page of the concrete two page chain. -/
def c6page2 : Page Int := Page.mk (some [3]) (some 7) (some none)

/-- A detail body with every key present except community: an enriched
release whose rating is absent. -/
def c2data : RData :=
  RData.mk (some ["A"]) (some "T") (some "UK") (some 1992) (some "u")
    none (some []) none

/-- A release rated 4.01. -/
def c8r401 : Release :=
  Release.mk (RData.mk (some ["A"]) (some "T1") (some "US") (some 2000)
    (some "u1") (some (mkRat 401 100)) (some []) none)

/-- A release rated exactly 4.0. -/
def c8r400 : Release :=
  Release.mk (RData.mk (some ["B"]) (some "T2") (some "US") (some 2001)
    (some "u2") (some (mkRat 4 1)) (some []) none)

/-- A detail endpoint returning a fully populated, highly rated release
with no videos for every id. -/
def c5detail : Int → RData := fun _ =>
  RData.mk (some ["A"]) (some "T") (some "US") (some 2000) (some "u")
    (some (mkRat 5 1)) (some []) none

/-- A fully populated detail body rated 4.5. -/
def c4good : RData :=
  RData.mk (some ["A"]) (some "T") (some "US") (some 2000) (some "u")
    (some (mkRat 9 2)) (some []) none

/-- An error envelope detail body: only a message key, no release data. -/
def c4env : RData :=
  RData.mk none none none none none none none (some "Release not found.")

/-- A detail endpoint answering id 2 with the error envelope and every
other id with the good body. -/
def c4detail : Int → RData := fun i => if i = 2 then c4env else c4good

/-- Three candidates, the third a master entry (id equals master_id). -/
def c4cands : List Candidate :=
  [Candidate.mk 1 0, Candidate.mk 2 0, Candidate.mk 3 3]

/-- Three eligible candidates, none a master entry. -/
def c4candsAll : List Candidate :=
  [Candidate.mk 1 0, Candidate.mk 2 0, Candidate.mk 3 0]

/-- A surviving release rated 1. -/
def c1rLow : Release :=
  Release.mk (RData.mk (some ["A"]) (some "T1") (some "DE") (some 1995)
    (some "uA") (some (mkRat 1 1)) (some []) none)

/-- A surviving release rated 2. -/
def c1rHigh : Release :=
  Release.mk (RData.mk (some ["B"]) (some "T2") (some "DE") (some 1996)
    (some "uB") (some (mkRat 2 1)) (some []) none)

theorem countRequests_append (a b : List Ev) :
    countRequests (a ++ b) = countRequests a + countRequests b := by
  induction a with
  | nil => simp [countRequests]
  | cons e t ih =>
    cases e
    · simp [countRequests, ih]
    · simp [countRequests, ih]; omega

theorem paginateLoop_chain {α : Type} (rest : List (Page α)) :
    ∀ (current : Page α) (acc : List α) (tr : List Ev),
      chainOk current rest = true → resultsPresent rest = true →
      ∃ tr2,
        paginateLoop current rest acc tr =
          Except.ok (acc ++ allRecords rest, tr2) ∧
        countRequests tr2 = countRequests tr + rest.length := by
  induction rest with
  | nil =>
    intro current acc tr hchain _
    have h : current.pagNext = some none := by
      simpa [chainOk] using hchain
    exact ⟨tr, by simp [paginateLoop, h, allRecords], by simp⟩
  | cons p rest ih =>
    intro current acc tr hchain hres
    rw [chainOk, Bool.and_eq_true] at hchain
    obtain ⟨hnxt, hchain2⟩ := hchain
    rw [resultsPresent, Bool.and_eq_true] at hres
    obtain ⟨hpr, hres2⟩ := hres
    obtain ⟨prs, hprs⟩ := Option.isSome_iff_exists.mp hpr
    have hu : ∃ u, current.pagNext = some (some u) := by
      unfold hasNext at hnxt
      cases hcp : current.pagNext with
      | none => rw [hcp] at hnxt; cases hnxt
      | some o =>
        cases o with
        | none => rw [hcp] at hnxt; cases hnxt
        | some u => exact ⟨u, rfl⟩
    obtain ⟨u, hcp⟩ := hu
    obtain ⟨tr2, heq, hcount⟩ :=
      ih p (acc ++ prs) (tr ++ [Ev.request (Target.url u)]) hchain2 hres2
    refine ⟨tr2, ?_, ?_⟩
    · rw [paginateLoop]
      simp only [hcp, hprs]
      rw [heq]
      simp [allRecords, hprs]
    · rw [hcount, countRequests_append]
      simp [countRequests]
      omega

/-- C6: for a pagination envelope spanning N pages whose first page
states N total pages, each page carrying its record list and each non
final page naming a next url, paginate returns exactly the
concatenation of all N pages record lists in page order and issues
exactly N-1 follow-up fetches. -/
theorem C6_paginate_chain {α : Type} (first : Page α) (rest : List (Page α))
    (hchain : chainOk first rest = true)
    (hfr : first.results.isSome = true)
    (hres : resultsPresent rest = true)
    (hpages : first.pagPages = some (1 + (rest.length : Int))) :
    resultOf (paginate first rest) = some (allRecords (first :: rest)) ∧
    (traceOf (paginate first rest)).map countRequests = some rest.length := by
  obtain ⟨rs, hrs⟩ := Option.isSome_iff_exists.mp hfr
  cases rest with
  | nil =>
    simp only [paginate, hrs, hpages]
    rw [if_neg (by simp)]
    simp [resultOf, traceOf, allRecords, hrs, countRequests]
  | cons p rest2 =>
    obtain ⟨tr2, heq, hcount⟩ :=
      paginateLoop_chain (p :: rest2) first rs [Ev.delay] hchain hres
    simp only [paginate, hrs, hpages]
    rw [if_pos (by push_cast [List.length_cons]; omega)]
    rw [heq]
    constructor
    · simp [resultOf, allRecords, hrs]
    · simp [traceOf, hcount, countRequests]

/-- Witness for C6 at a concrete two page chain. -/
theorem C6_witness :
    resultOf (paginate c6page1 [c6page2]) = some (allRecords [c6page1, c6page2]) ∧
    (traceOf (paginate c6page1 [c6page2])).map countRequests =
      some [c6page2].length :=
  C6_paginate_chain c6page1 [c6page2] (by decide) (by decide) (by decide) (by decide)

/-- C7 counterexample: a first page whose pagination block is empty (no
pages key) names no next url, yet paginate raises KeyError instead of
returning the page records, refuting the malformed block part of the
claim. -/
theorem C7_counterexample :
    paginate (Page.mk (some [1]) none (some none)) ([] : List (Page Int)) =
      Except.error PyErr.keyError := rfl

/-- C7 amended: for a first page whose pagination block carries a page
count and whose urls block names no next url, paginate returns exactly
that page records and issues zero follow-up fetches, whatever the
stated page count; a missing pages key or missing urls block instead
raises KeyError. -/
theorem C7_no_next_url {α : Type} (first : Page α) (responses : List (Page α))
    (rs : List α) (n : Int)
    (h1 : first.results = some rs) (h2 : first.pagPages = some n)
    (h3 : first.pagNext = some none) :
    paginate first responses = Except.ok (rs, if 1 < n then [Ev.delay] else []) := by
  by_cases h : 1 < n
  · simp only [paginate, h1, h2, if_pos h, paginateLoop, h3]
  · simp only [paginate, h1, h2, if_neg h]

/-- Witness for C7 at a concrete page stating 9 total pages but naming
no next url. -/
theorem C7_witness :
    paginate (Page.mk (some [5]) (some 9) (some none))
        [Page.mk (some [6]) (some 1) (some (some "x"))] =
      Except.ok ([5], if (1 : Int) < 9 then [Ev.delay] else []) :=
  C7_no_next_url _ _ _ _ rfl rfl rfl

/-- C10: whenever the first page states a total page count of 1 or less,
paginate issues no follow-up fetch and returns only the first page
records, even if a next url is present. -/
theorem C10_page_count_gate {α : Type} (first : Page α)
    (responses : List (Page α)) (rs : List α) (n : Int)
    (h1 : first.results = some rs) (h2 : first.pagPages = some n)
    (hn : n ≤ 1) :
    paginate first responses = Except.ok (rs, []) := by
  simp only [paginate, h1, h2, if_neg (show ¬ (1 : Int) < n by omega)]

/-- Witness for C10 at a page that names a next url yet states a single
page: zero follow-up fetches. -/
theorem C10_witness :
    paginate (Page.mk (some [1, 2]) (some 1) (some (some "u")))
        [Page.mk (some [9]) (some 1) (some none)] =
      Except.ok ([1, 2], ([] : List Ev)) :=
  C10_page_count_gate _ _ _ _ rfl rfl (by decide)

/-- C3: the code violates the claim that every quota counted request is
immediately preceded by the throttle delay. On a three page search the
trace opens with the initial search request not preceded by any delay,
and the second and third page fetches are issued back to back: the
single sleep sits before the pagination loop, not inside it. -/
theorem C3_throttle_gap :
    search_releases c3page1 [c3page2, c3page3] =
      Except.ok ([1, 2, 3],
        [Ev.request Target.search, Ev.delay, Ev.request (Target.url "u2"),
         Ev.request (Target.url "u3")]) ∧
    everyRequestThrottled
        [Ev.request Target.search, Ev.delay, Ev.request (Target.url "u2"),
         Ev.request (Target.url "u3")] = false :=
  ⟨rfl, rfl⟩

theorem requestTargets_append (a b : List Ev) :
    requestTargets (a ++ b) = requestTargets a ++ requestTargets b := by
  induction a with
  | nil => rfl
  | cons e t ih => cases e <;> simp [requestTargets, ih]

theorem requestTargets_enrich (detail : Int → RData) (ids : List Int) :
    requestTargets (enrichReleases detail ids).2 = ids.map Target.release := by
  induction ids with
  | nil => rfl
  | cons i t ih =>
    simp [enrichReleases, get_full_release, requestTargets, ih]

/-- C9: the enrichment step inside filter_results never issues a detail
fetch for a candidate whose id equals its master_id; the fetched ids
are exactly the ids of the candidates with id different from master_id,
in input order. -/
theorem C9_enrichment_skips_masters (detail : Int → RData)
    (results : List Candidate) (min_rating : Rat) (no_videos : Bool) :
    requestTargets (filter_results detail results min_rating no_videos).2 =
      ((results.filter (fun r => r.id != r.master_id)).map Candidate.id).map
        Target.release := by
  simpa [filter_results] using
    requestTargets_enrich detail
      ((results.filter (fun r => r.id != r.master_id)).map Candidate.id)

/-- C2: the code violates the claim that a release with an absent rating
is excluded without raising. Release.rating is None for a body with no
community key, and the comparison None is greater than min_rating
raises TypeError, aborting the rating filter instead of skipping the
release. -/
theorem C2_absent_rating_raises :
    Release.rating (Release.mk c2data) = none ∧
    filterByRating [Release.mk c2data] (mkRat 4 1) =
      Except.error PyErr.typeError :=
  ⟨rfl, rfl⟩

/-- C8: the rating threshold is strict: with min_rating 4.0 a release
rated 4.01 is kept and a release rated exactly 4.0 is dropped. -/
theorem C8_strict_threshold :
    filterByRating [c8r401, c8r400] (mkRat 4 1) = Except.ok [c8r401] := by
  rfl

/-- C5: the code violates the claim that the media filter drops releases
with videos and keeps the rest without raising. The body of has_videos
is false for a videoless release, yet the doubled property decorator
makes every attribute access raise TypeError, so filter_results with
no_videos set aborts on the first surviving release. -/
theorem C5_media_filter_raises :
    Release.has_videos_body (Release.mk (c5detail 7)) = false ∧
    (filter_results c5detail [Candidate.mk 7 3] (mkRat 4 1) true).1 =
      Except.error PyErr.typeError :=
  ⟨rfl, rfl⟩

theorem enrichReleases_fst (detail : Int → RData) (ids : List Int) :
    (enrichReleases detail ids).1 = ids.map (fun i => Release.mk (detail i)) := by
  induction ids with
  | nil => rfl
  | cons i t ih => simp [enrichReleases, get_full_release, ih]

theorem filterByRating_absent_error (releases : List Release) (m : Rat)
    (h : ∃ r ∈ releases, Release.rating r = none) :
    filterByRating releases m = Except.error PyErr.typeError := by
  induction releases with
  | nil => simp at h
  | cons r rest ih =>
    obtain ⟨x, hx, hnone⟩ := h
    rcases List.mem_cons.mp hx with heq | hmem
    · subst heq
      simp [filterByRating, hnone]
    · cases hr : Release.rating r with
      | none => simp [filterByRating, hr]
      | some a => simp [filterByRating, hr, ih ⟨x, hmem, hnone⟩]

/-- C4 amended: a detail response that is an error envelope is not
detected during enrichment: the envelope is wrapped into a Release and
kept (one Release per eligible candidate, none dropped, no notice), and
the run then aborts with a TypeError when the rating filter reaches the
envelope, whose rating is absent. -/
theorem C4_error_envelope_kept (detail : Int → RData)
    (results : List Candidate) (min_rating : Rat) (no_videos : Bool) (i : Int)
    (hi : i ∈ (results.filter (fun r => r.id != r.master_id)).map Candidate.id)
    (henv : (detail i).community = none) :
    (filter_results detail results min_rating no_videos).1 =
      Except.error PyErr.typeError ∧
    (enrichReleases detail
        ((results.filter (fun r => r.id != r.master_id)).map Candidate.id)).1.length =
      ((results.filter (fun r => r.id != r.master_id)).map Candidate.id).length := by
  have hmem : Release.mk (detail i) ∈
      (enrichReleases detail
        ((results.filter (fun r => r.id != r.master_id)).map Candidate.id)).1 := by
    rw [enrichReleases_fst]
    exact List.mem_map_of_mem _ hi
  have herr : filterByRating
      (enrichReleases detail
        ((results.filter (fun r => r.id != r.master_id)).map Candidate.id)).1
      min_rating = Except.error PyErr.typeError :=
    filterByRating_absent_error _ _
      ⟨Release.mk (detail i), hmem, by simp [Release.rating, henv]⟩
  constructor
  · simp only [filter_results, herr]
  · rw [enrichReleases_fst, List.length_map]

/-- Witness for C4 amended: candidates 1 and 2 are eligible, id 2
answers with the error envelope. -/
theorem C4_witness :
    (filter_results c4detail c4cands (mkRat 4 1) false).1 =
      Except.error PyErr.typeError ∧
    (enrichReleases c4detail
        ((c4cands.filter (fun r => r.id != r.master_id)).map Candidate.id)).1.length =
      ((c4cands.filter (fun r => r.id != r.master_id)).map Candidate.id).length :=
  C4_error_envelope_kept c4detail c4cands (mkRat 4 1) false 2 (by decide) rfl

/-- C4 counterexample: with three eligible candidates and the detail
endpoint answering id 2 with an error envelope, enrichment keeps all
three responses as Release values, the envelope included, and the run
aborts with a TypeError at the rating filter: the envelope candidate is
not dropped and the remaining enrichment does not continue past the
filter. -/
theorem C4_counterexample :
    (enrichReleases c4detail [1, 2, 3]).1 =
      [Release.mk c4good, Release.mk c4env, Release.mk c4good] ∧
    (filter_results c4detail c4candsAll (mkRat 4 1) false).1 =
      Except.error PyErr.typeError :=
  ⟨rfl, rfl⟩

theorem renderRelease_rating (r : Release) (l : Line)
    (h : renderRelease r = Except.ok l) : l.rating = Release.rating r := by
  unfold renderRelease at h
  repeat' split at h
  all_goals try cases h
  all_goals rfl

/-- C1 amended: the report stage applies no sort: output_results renders
the surviving releases in exactly the order received from the filter
stage, so the ratings appear in output in enrichment order (in
particular ties keep their original relative order, but a descending
order holds only when the input already has it). -/
theorem C1_render_order (rs : List Release) (ls : List Line)
    (h : output_results rs = Except.ok ls) :
    ls.map Line.rating = rs.map Release.rating := by
  induction rs generalizing ls with
  | nil =>
    unfold output_results at h
    injection h with h2
    subst h2
    rfl
  | cons r rest ih =>
    unfold output_results at h
    cases hr : renderRelease r with
    | error e => rw [hr] at h; cases h
    | ok l =>
      rw [hr] at h
      cases ho : output_results rest with
      | error e => rw [ho] at h; cases h
      | ok ls2 =>
        rw [ho] at h
        injection h with h2
        subst h2
        simp [List.map, ih ls2 ho, renderRelease_rating r l hr]

/-- Witness for C1 amended at two concrete surviving releases. -/
theorem C1_witness :
    [Line.mk "A" "T1" "DE" 1995 (some (mkRat 1 1)) "uA",
     Line.mk "B" "T2" "DE" 1996 (some (mkRat 2 1)) "uB"].map Line.rating =
      [c1rLow, c1rHigh].map Release.rating :=
  C1_render_order [c1rLow, c1rHigh] _ rfl

/-- C1 counterexample: on two surviving releases rated 1 then 2, the
report renders them in that order, while rendering after the spec
report sort would put the rating 2 release first: the report stage does
not sort by rating descending before rendering. -/
theorem C1_counterexample :
    output_results [c1rLow, c1rHigh] ≠
      output_results (reportSortSpec [c1rLow, c1rHigh]) := by
  have h1 : output_results [c1rLow, c1rHigh] =
      Except.ok [Line.mk "A" "T1" "DE" 1995 (some (mkRat 1 1)) "uA",
                 Line.mk "B" "T2" "DE" 1996 (some (mkRat 2 1)) "uB"] := rfl
  have h2 : output_results (reportSortSpec [c1rLow, c1rHigh]) =
      Except.ok [Line.mk "B" "T2" "DE" 1996 (some (mkRat 2 1)) "uB",
                 Line.mk "A" "T1" "DE" 1995 (some (mkRat 1 1)) "uA"] := rfl
  rw [h1, h2]
  simp
